import Mathlib

/-!
Shallow embedding of the Matrix↔LiveKit recording bot
(call registry, recording session controller, event classifier,
webhook reconciler), translated from:

  src/src/bot/commands.py          (CommandHandler)
  src/src/bot/event_handler.py     (EventHandler, CALL_EVENT_TYPES, CALL_START_EVENTS)
  src/src/services/recording_service.py (RecordingService)
  src/src/server/models/recording.py     (Recording, RecordingStatus)
  src/src/server/repositories/recordings_repository.py (RecordingsRepository)

Conventions:
* Python dicts `active_calls` / `active_recordings` are association lists
  with python-dict semantics (insert overwrites, remove deletes the key).
* The database is a list of `Recording` rows; `update_by_egress_id` updates
  every row with the matching key and then re-selects the first match,
  exactly as the SQLAlchemy repository does.
* `datetime.utcnow()` / `time.time()` are an explicit `now` parameter.
* Calls to the external LiveKit backend are oracles carried by a `Backend`
  record (one slot per call site), and every externally visible operation
  additionally returns a trace of backend calls and database writes (`Op`),
  so that "the backend call happens before the database write" is a
  statement about the trace.
* `hashlib.md5(...).hexdigest()` is implemented bit-faithfully below on
  `Nat` (RFC 1321), operating on the UTF-8 bytes of the input string.
-/

namespace Zadacha

/-! ### Python-style string and option helpers -/

/-- Python truthiness of an optional string: `None` and `""` are falsy. -/
def truthyS : Option String → Bool
  | none => false
  | some s => s ≠ ""

/-- Python `a or b` on optional strings: the first operand if truthy, else the second. -/
def pyOr (a b : Option String) : Option String :=
  if truthyS a then a else b

/-- The python whitespace set for `str.split()` / `str.strip()`:
space, tab, newline, carriage return, vertical tab, form feed. -/
def isWsChar (c : Char) : Bool :=
  c = ' ' || c = '\t' || c = '\n' || c = '\r' || c.toNat = 11 || c.toNat = 12

/-- Helper of `pySplitWs`: accumulate the current word (reversed). -/
def splitWsAux : List Char → List Char → List String
  | [], cur => if cur.isEmpty then [] else [String.mk cur.reverse]
  | c :: cs, cur =>
    if isWsChar c then
      if cur.isEmpty then splitWsAux cs []
      else String.mk cur.reverse :: splitWsAux cs []
    else splitWsAux cs (c :: cur)

/-- Python `str.split()` with no argument: split on whitespace runs, dropping empties. -/
def pySplitWs (s : String) : List String :=
  splitWsAux s.data []

/-- Python `str.strip()` with no argument. -/
def pyTrim (s : String) : String :=
  String.mk (((s.data.dropWhile isWsChar).reverse.dropWhile isWsChar).reverse)

/-- ASCII lowercasing of one character (the inputs the code lowercases are
ASCII command words and error messages). -/
def lowerChar (c : Char) : Char :=
  if 65 ≤ c.toNat ∧ c.toNat ≤ 90 then Char.ofNat (c.toNat + 32) else c

/-- Python `str.lower()` (ASCII range). -/
def pyLower (s : String) : String :=
  String.mk (s.data.map lowerChar)

/-- Python slicing `s[:n]`. -/
def pyTake (s : String) (n : Nat) : String :=
  String.mk (s.data.take n)

/-- Python `s.startswith(pre)`. -/
def pyStartsWith (s pre : String) : Bool :=
  pre.data.isPrefixOf s.data

/-- Helper of `containsSub`: is `needle` an infix of the second list? -/
def isSubList (needle : List Char) : List Char → Bool
  | [] => needle.isEmpty
  | c :: cs => needle.isPrefixOf (c :: cs) || isSubList needle cs

/-- Python `needle in hay` on strings (substring containment). -/
def containsSub (hay needle : String) : Bool :=
  isSubList needle.data hay.data

/-! ### MD5 (RFC 1321), as used by `hashlib.md5(...).hexdigest()` -/

/-- 2^32, the word modulus of MD5. -/
def m32 : Nat := 4294967296

/-- Addition modulo 2^32. -/
def add32 (a b : Nat) : Nat := (a + b) % m32

/-- Bitwise complement inside 32 bits (argument assumed < 2^32). -/
def not32 (x : Nat) : Nat := 4294967295 - x

/-- Left rotation of a 32-bit word by `s` places. -/
def rotl32 (x s : Nat) : Nat := ((x <<< s) % m32) ||| (x >>> (32 - s))

/-- Per-round shift amounts of MD5. -/
def md5S : List Nat :=
  [7, 12, 17, 22, 7, 12, 17, 22, 7, 12, 17, 22, 7, 12, 17, 22,
   5, 9, 14, 20, 5, 9, 14, 20, 5, 9, 14, 20, 5, 9, 14, 20,
   4, 11, 16, 23, 4, 11, 16, 23, 4, 11, 16, 23, 4, 11, 16, 23,
   6, 10, 15, 21, 6, 10, 15, 21, 6, 10, 15, 21, 6, 10, 15, 21]

/-- Per-round additive constants of MD5 (⌊|sin(i+1)|·2^32⌋). -/
def md5K : List Nat :=
  [3614090360, 3905402710, 606105819, 3250441966, 4118548399, 1200080426, 2821735955, 4249261313,
   1770035416, 2336552879, 4294925233, 2304563134, 1804603682, 4254626195, 2792965006, 1236535329,
   4129170786, 3225465664, 643717713, 3921069994, 3593408605, 38016083, 3634488961, 3889429448,
   568446438, 3275163606, 4107603335, 1163531501, 2850285829, 4243563512, 1735328473, 2368359562,
   4294588738, 2272392833, 1839030562, 4259657740, 2763975236, 1272893353, 4139469664, 3200236656,
   681279174, 3936430074, 3572445317, 76029189, 3654602809, 3873151461, 530742520, 3299628645,
   4096336452, 1126891415, 2878612391, 4237533241, 1700485571, 2399980690, 4293915773, 2240044497,
   1873313359, 4264355552, 2734768916, 1309151649, 4149444226, 3174756917, 718787259, 3951481745]

/-- UTF-8 encoding of one code point, as a list of byte values. -/
def utf8Bytes (c : Nat) : List Nat :=
  if c < 128 then [c]
  else if c < 2048 then
    [192 ||| (c >>> 6), 128 ||| (c &&& 63)]
  else if c < 65536 then
    [224 ||| (c >>> 12), 128 ||| ((c >>> 6) &&& 63), 128 ||| (c &&& 63)]
  else
    [240 ||| (c >>> 18), 128 ||| ((c >>> 12) &&& 63), 128 ||| ((c >>> 6) &&& 63), 128 ||| (c &&& 63)]

/-- UTF-8 bytes of a string (python `s.encode()`). -/
def strBytes (s : String) : List Nat :=
  s.data.foldr (fun c acc => utf8Bytes c.toNat ++ acc) []

/-- MD5 padding: append `0x80`, zero bytes to 56 mod 64, then the 64-bit
little-endian bit length. -/
def md5Pad (msg : List Nat) : List Nat :=
  let bitLen := (msg.length * 8) % 18446744073709551616
  let zeros := (64 + 56 - (msg.length + 1) % 64) % 64
  msg ++ [128] ++ List.replicate zeros 0 ++
    [bitLen % 256, (bitLen >>> 8) % 256, (bitLen >>> 16) % 256, (bitLen >>> 24) % 256,
     (bitLen >>> 32) % 256, (bitLen >>> 40) % 256, (bitLen >>> 48) % 256, (bitLen >>> 56) % 256]

/-- The `j`-th little-endian 32-bit word of a 64-byte chunk. -/
def md5Word (chunk : List Nat) (j : Nat) : Nat :=
  chunk.getD (4 * j) 0 + 256 * chunk.getD (4 * j + 1) 0 +
    65536 * chunk.getD (4 * j + 2) 0 + 16777216 * chunk.getD (4 * j + 3) 0

/-- One MD5 round `i` (0 ≤ i < 64) on the state `(a, b, c, d)`. -/
def md5Round (chunk : List Nat) (st : Nat × Nat × Nat × Nat) (i : Nat) : Nat × Nat × Nat × Nat :=
  let (a, b, c, d) := st
  let (f, g) :=
    if i < 16 then ((b &&& c) ||| (not32 b &&& d), i)
    else if i < 32 then ((d &&& b) ||| (not32 d &&& c), (5 * i + 1) % 16)
    else if i < 48 then (b ^^^ c ^^^ d, (3 * i + 5) % 16)
    else (c ^^^ (b ||| not32 d), (7 * i) % 16)
  let f' := add32 (add32 (add32 f a) (md5K.getD i 0)) (md5Word chunk g)
  (d, add32 b (rotl32 f' (md5S.getD i 0)), b, c)

/-- Process one 64-byte chunk, updating the running digest state. -/
def md5Chunk (st : Nat × Nat × Nat × Nat) (chunk : List Nat) : Nat × Nat × Nat × Nat :=
  let (a0, b0, c0, d0) := st
  let (a, b, c, d) := (List.range 64).foldl (md5Round chunk) (a0, b0, c0, d0)
  (add32 a0 a, add32 b0 b, add32 c0 c, add32 d0 d)

/-- MD5 digest state after consuming all chunks of a padded message. -/
def md5Core (msg : List Nat) : Nat × Nat × Nat × Nat :=
  let padded := md5Pad msg
  (List.range (padded.length / 64)).foldl
    (fun st i => md5Chunk st ((padded.drop (64 * i)).take 64))
    (1732584193, 4023233417, 2562383102, 271733878)

/-- Lowercase hex digit. -/
def hexDigit (n : Nat) : Char :=
  if n < 10 then Char.ofNat (48 + n) else Char.ofNat (87 + n)

/-- Two lowercase hex digits of a byte. -/
def byteHex (b : Nat) : String :=
  String.mk [hexDigit (b / 16), hexDigit (b % 16)]

/-- Little-endian hex rendering of a 32-bit word. -/
def wordHexLE (w : Nat) : String :=
  byteHex (w % 256) ++ byteHex ((w >>> 8) % 256) ++ byteHex ((w >>> 16) % 256) ++
    byteHex ((w >>> 24) % 256)

/-- `hashlib.md5(s.encode()).hexdigest()`: 32 lowercase hex characters. -/
def md5Hex (s : String) : String :=
  let (a, b, c, d) := md5Core (strBytes s)
  wordHexLE a ++ wordHexLE b ++ wordHexLE c ++ wordHexLE d

/-! ### Data model (src/src/server/models/recording.py) -/

/-- `RecordingStatus` enumeration of the persisted record. -/
inductive RecordingStatus
  | ACTIVE
  | PROCESSING
  | COMPLETED
  | FAILED
  | STOPPED
deriving DecidableEq, Repr

/-- A terminal status per spec §4.3 (COMPLETED, FAILED, STOPPED). -/
def RecordingStatus.isTerminal : RecordingStatus → Bool
  | .COMPLETED => true
  | .FAILED => true
  | .STOPPED => true
  | _ => false

/-- S3 sub-object of a webhook payload (`egress_info["s3"]` / `file["s3"]`). -/
structure S3Info where
  bucket : Option String := none
  key : Option String := none
  url : Option String := none
  size : Option String := none
deriving DecidableEq, Repr

/-- `file` sub-object of a webhook payload. -/
structure FileInfo where
  s3 : Option S3Info := none
  bucket : Option String := none
  key : Option String := none
  filename : Option String := none
  path : Option String := none
  url : Option String := none
  size : Option String := none
deriving DecidableEq, Repr

/-- The `egress` object of a LiveKit webhook payload.  `stream` is opaque,
`duration` is already stringified (`str(...)`), and `status` is the
backend-reported sub-status carried by `egress_updated` payloads — the
handler never reads it.  The `file`/`s3`/`stream`/`error`/`duration` keys
feed only the `egress_ended` update dict, whose database write never
executes (see `handle_webhook_event`). -/
structure EgressInfo where
  egress_id : Option String := none
  room_name : Option String := none
  file : Option FileInfo := none
  stream : Option String := none
  s3 : Option S3Info := none
  error : Option String := none
  duration : Option String := none
  status : Option String := none
deriving DecidableEq, Repr

/-- One row of the `recordings` table, with exactly the columns the ORM
model maps.  Timestamps are opaque `Nat` clock values; server-generated
columns (`id`, `created_at`, `updated_at`) are not modelled.  Note the
audit column is `context` (never written by any code path): the model maps
no `metadata` attribute — that name is reserved by SQLAlchemy declarative
— which is why the `egress_ended` update below always fails. -/
structure Recording where
  egress_id : String
  room_name : String
  matrix_room_id : Option String := none
  file_path : Option String := none
  file_url : Option String := none
  file_size : Option String := none
  duration : Option String := none
  bucket : Option String := none
  object_key : Option String := none
  started_by : Option String := none
  stopped_by : Option String := none
  status : RecordingStatus := .ACTIVE
  started_at : Option Nat := none
  stopped_at : Option Nat := none
  completed_at : Option Nat := none
  context : Option String := none
deriving DecidableEq, Repr

/-! ### Repository (src/src/server/repositories/recordings_repository.py) -/

/-- `RecordingsRepository.get_by_egress_id`: first row with the given key. -/
def getByEgressId : List Recording → String → Option Recording
  | [], _ => none
  | r :: l, egress_id =>
    if r.egress_id = egress_id then some r else getByEgressId l egress_id

/-- `RecordingsRepository.create`: inserts a row. -/
def dbCreateRec (db : List Recording) (r : Recording) : List Recording :=
  db ++ [r]

/-- `RecordingsRepository.update_by_egress_id`: SQL UPDATE of every row with
the matching key, then re-select (returns the updated row, or `none` when no
row matched). -/
def updateByEgressId (db : List Recording) (egress_id : String)
    (f : Recording → Recording) : List Recording × Option Recording :=
  let db' := db.map (fun r => if r.egress_id = egress_id then f r else r)
  (db', getByEgressId db' egress_id)

/-! ### Registries (python dicts `active_calls` / `active_recordings`) -/

/-- Python `d.get(k)` on a string-keyed dict. -/
def dictLookup : List (String × String) → String → Option String
  | [], _ => none
  | p :: l, k => if p.1 = k then some p.2 else dictLookup l k

/-- Python `k in d`. -/
def dictContains (d : List (String × String)) (k : String) : Bool :=
  (dictLookup d k).isSome

/-- Python `del d[k]` / `d.pop(k)`. -/
def dictRemove : List (String × String) → String → List (String × String)
  | [], _ => []
  | p :: l, k => if p.1 = k then dictRemove l k else p :: dictRemove l k

/-- Python `d[k] = v` (replaces any existing binding). -/
def dictInsert (d : List (String × String)) (k v : String) : List (String × String) :=
  dictRemove d k ++ [(k, v)]

/-! ### External backend oracle and operation traces -/

/-- Externally visible steps, for ordering statements ("the backend call
happens before the database write"). -/
inductive Op
  | backendStart (room : String)
  | backendCreateRoom (room : String)
  | backendStop (egress : String)
  | dbCreate (egress : String)
  | dbUpdate (egress : String)
deriving DecidableEq, Repr

/-- Successful result of `livekit_client.start_recording`. -/
structure StartOk where
  egress_id : String
  bucket : Option String := none
  object_key : Option String := none
deriving DecidableEq, Repr

/-- Outcomes of the individual LiveKit client calls, one slot per call
site, plus the `dev_mode` configuration flag. `Except.error e` models the
call raising an exception whose `str(...)` is `e`. -/
structure Backend where
  dev_mode : Bool
  startResult : Except String StartOk
  createRoomResult : Except String Unit
  retryStartResult : Except String StartOk
  stopResult : Except String Unit

/-- The "room does not exist" / "not_found" test applied to error messages
(in `RecordingService.start_recording` and `CommandHandler._handle_record_start`). -/
def roomNotFoundMsg (e : String) : Bool :=
  containsSub (pyLower e) "room does not exist" || containsSub (pyLower e) "not_found"

/-! ### RecordingService (src/src/services/recording_service.py) -/

/-- `RecordingService.start_recording`.  Calls the backend first; on a
"room does not exist"/"not_found" failure with `dev_mode` enabled it creates
the room and retries exactly once; only after a successful backend start does
it insert the ACTIVE row.  Returns the result (or the propagated exception
message) together with the trace of backend calls and database writes. -/
def service_start (b : Backend) (room_name : String)
    (matrix_room_id started_by : Option String) (now : Nat) (db : List Recording) :
    Except String (List Recording × Recording) × List Op :=
  let finish := fun (res : StartOk) (tr : List Op) =>
    let rec0 : Recording :=
      { egress_id := res.egress_id
        room_name := room_name
        matrix_room_id := matrix_room_id
        started_by := started_by
        status := .ACTIVE
        started_at := some now
        bucket := res.bucket
        object_key := res.object_key }
    (Except.ok (dbCreateRec db rec0, rec0), tr ++ [Op.dbCreate res.egress_id])
  match b.startResult with
  | .ok res => finish res [Op.backendStart room_name]
  | .error e =>
    if roomNotFoundMsg e && b.dev_mode then
      match b.createRoomResult with
      | .error ce =>
        (Except.error ce, [Op.backendStart room_name, Op.backendCreateRoom room_name])
      | .ok _ =>
        match b.retryStartResult with
        | .ok res =>
          finish res [Op.backendStart room_name, Op.backendCreateRoom room_name,
            Op.backendStart room_name]
        | .error re =>
          (Except.error re, [Op.backendStart room_name, Op.backendCreateRoom room_name,
            Op.backendStart room_name])
    else (Except.error e, [Op.backendStart room_name])

/-- `RecordingService.stop_recording`.  Calls the backend stop first; only on
success does it write `status := STOPPED, stopped_at := now` (note: it does
not write `stopped_by`). -/
def service_stop (b : Backend) (egress_id : String) (now : Nat) (db : List Recording) :
    Except String (List Recording × Option Recording) × List Op :=
  match b.stopResult with
  | .error e => (Except.error e, [Op.backendStop egress_id])
  | .ok _ =>
    let r := updateByEgressId db egress_id
      (fun r => { r with status := .STOPPED, stopped_at := some now })
    (Except.ok r, [Op.backendStop egress_id, Op.dbUpdate egress_id])

/-- `RecordingService.handle_webhook_event`.  Rejects payloads without an
`egress_id` (no mutation, no error); `egress_started` creates a row (room
name defaulting to "unknown") or re-activates the existing one;
`egress_updated` and unknown event types only log.  The `egress_ended`
branch extracts its field updates from the payload, but the update dict it
builds always contains the key `"metadata"` — and the `Recording` model
maps no such column (its audit column is `context`; `metadata` is a
reserved attribute of SQLAlchemy declarative models, and the
`create_all`-derived schema has no such column either) — so
`update(Recording).values(**update_data)` raises before anything is
written and the exception propagates out of the handler.  Fallible
behaviour is modelled with `Except`: `.error` carries the exception
message and implies the database is untouched. -/
def handle_webhook_event (db : List Recording) (event_type : String)
    (info : EgressInfo) (now : Nat) :
    Except String (List Recording × Option Recording) :=
  match info.egress_id with
  | none => .ok (db, none)
  | some egress_id =>
    if egress_id = "" then .ok (db, none)
    else if event_type = "egress_started" then
      match getByEgressId db egress_id with
      | none =>
        let rec0 : Recording :=
          { egress_id := egress_id
            room_name := info.room_name.getD "unknown"
            status := .ACTIVE
            started_at := some now }
        .ok (dbCreateRec db rec0, some rec0)
      | some _ =>
        .ok (updateByEgressId db egress_id (fun r => { r with status := .ACTIVE }))
    else if event_type = "egress_ended" then
      .error "Unconsumed column names: metadata"
    else .ok (db, none)

/-! ### CommandHandler (src/src/bot/commands.py) -/

/-- Shared mutable bot state: the two registries and the database. -/
structure BotState where
  active_recordings : List (String × String) := []
  active_calls : List (String × String) := []
  db : List Recording := []
deriving DecidableEq, Repr

/-- The AlreadyRecording reply of `_handle_record_start`. -/
def alreadyRecordingMsg (eid : String) : String :=
  "Recording already in progress. Egress ID: " ++ eid

/-- The NoActiveCall reply of `_handle_record_start`. -/
def noActiveCallMsg : String :=
  "❌ No active call in this room. Recording can only be started during an active call."

/-- The success reply of `_handle_record_start` (the LiveKit room name is the
call id). -/
def startSuccessMsg (call_id eid : String) : String :=
  "✅ Recording started!\nLiveKit Room: " ++ call_id ++ "\nCall ID: " ++ call_id ++
    "\nEgress ID: " ++ eid ++ "\nUse /record stop to stop recording."

/-- The "room does not exist" reply of `_handle_record_start`. -/
def roomNotExistMsg (room_name : String) : String :=
  "❌ LiveKit room \x27" ++ room_name ++ "\x27 does not exist.\n" ++
    "This usually means the LiveKit room hasn\x27t been created yet.\n" ++
    "Please ensure the room exists in LiveKit before starting recording."

/-- The success reply of `_handle_record_stop`. -/
def stopSuccessMsg (eid : String) : String :=
  "✅ Recording stopped!\nEgress ID: " ++ eid ++ "\nRecording will be processed and saved."

/-- `CommandHandler._handle_record_start`.  `b` supplies the outcomes of
the `RecordingService.start_recording` call (and its internal dev-mode
retry).  On a "room does not exist" / "not_found" failure the source has a
command-level dev-mode create-room-and-retry block, but it is dead code:
its relative import (`from ...config.config import ...`, commands.py line
127) reaches beyond the top-level package and raises ImportError, which
the enclosing except swallows, so the handler always falls through to the
room-not-exist reply without any further backend call. -/
def record_start (st : BotState) (b : Backend) (room_id sender : String) (now : Nat) :
    BotState × String × List Op :=
  match dictLookup st.active_recordings room_id with
  | some eid => (st, alreadyRecordingMsg eid, [])
  | none =>
    match dictLookup st.active_calls room_id with
    | none => (st, noActiveCallMsg, [])
    | some call_id =>
      let room_name := call_id
      match service_start b room_name (some room_id) (some sender) now st.db with
      | (.ok (db', rec0), tr) =>
        ({ st with
            db := db'
            active_recordings := dictInsert st.active_recordings room_id rec0.egress_id },
          startSuccessMsg call_id rec0.egress_id, tr)
      | (.error e, tr) =>
        if roomNotFoundMsg e then (st, roomNotExistMsg room_name, tr)
        else (st, "❌ Failed to start recording: " ++ e, tr)

/-- `CommandHandler._handle_record_stop`: stops via the service; only on
success removes the room from `active_recordings`. -/
def record_stop (st : BotState) (b : Backend) (room_id _sender : String) (now : Nat) :
    BotState × String × List Op :=
  match dictLookup st.active_recordings room_id with
  | none => (st, "No active recording found for this room.", [])
  | some eid =>
    match service_stop b eid now st.db with
    | (.ok (db', _), tr) =>
      ({ st with db := db', active_recordings := dictRemove st.active_recordings room_id },
        stopSuccessMsg eid, tr)
    | (.error e, tr) => (st, "❌ Failed to stop recording: " ++ e, tr)

/-- `CommandHandler.handle_command`: split the text on whitespace; `/record`
with a missing action yields the usage hint, an unknown action an error
string; anything else (including empty input) yields no response. -/
def handle_command (st : BotState) (b : Backend) (command room_id sender : String)
    (now : Nat) : BotState × Option String × List Op :=
  match pySplitWs command with
  | [] => (st, none, [])
  | cmd :: parts1 =>
    if pyLower cmd = "/record" then
      match parts1 with
      | [] => (st, some "Usage: /record start|stop", [])
      | a :: _ =>
        let action := pyLower a
        if action = "start" then
          let r := record_start st b room_id sender now
          (r.1, some r.2.1, r.2.2)
        else if action = "stop" then
          let r := record_stop st b room_id sender now
          (r.1, some r.2.1, r.2.2)
        else
          (st, some ("Unknown action: " ++ action ++ ". Use \x27start\x27 or \x27stop\x27"), [])
    else (st, none, [])

/-- `CommandHandler.register_call`. -/
def register_call (st : BotState) (room_id call_id : String) : BotState :=
  { st with active_calls := dictInsert st.active_calls room_id call_id }

/-- `CommandHandler.unregister_call`: pops the room from `active_calls`
(when present) and returns the active egress id of the room (when one is
tracked); it does not itself touch `active_recordings`. -/
def unregister_call (st : BotState) (room_id : String) : BotState × Option String :=
  if dictContains st.active_calls room_id then
    let st' := { st with active_calls := dictRemove st.active_calls room_id }
    if dictContains st.active_recordings room_id then
      (st', dictLookup st.active_recordings room_id)
    else (st', none)
  else (st, none)

/-! ### EventHandler (src/src/bot/event_handler.py) -/

/-- `CALL_EVENT_TYPES` (MSC3401/MSC2746 protocol type strings). -/
def CALL_EVENT_TYPES : List String :=
  ["org.matrix.msc3401.call", "org.matrix.msc3401.call.member",
   "org.matrix.msc4075.call.notify", "m.call.negotiate", "m.call.sdp", "m.call.candidates"]

/-- `CALL_START_EVENTS` (types that indicate call start). -/
def CALL_START_EVENTS : List String :=
  ["org.matrix.msc3401.call", "org.matrix.msc3401.call.member",
   "org.matrix.msc4075.call.notify", "m.call.negotiate"]

/-- The substring-based loose classification of call-related events. -/
def isCallEvent (event_type : String) : Bool :=
  CALL_EVENT_TYPES.contains event_type ||
    (["call", "negotiate", "sdp", "candidates"].any fun t => containsSub event_type t)

/-- Staleness threshold for chat messages: 30 seconds, in milliseconds
(`handle_message` drops events with `age_seconds > 30`). -/
def messageMaxAgeMs : Nat := 30000

/-- Staleness threshold for call-signaling events: 2 minutes, in
milliseconds (`handle_unknown_event` drops events with `age_seconds > 2*60`). -/
def callEventMaxAgeMs : Nat := 120000

/-- The untyped `content` payload of a Matrix event; only the identifier
aliases the extractor reads are modelled (absent key = `none`). -/
structure EventContent where
  call_id : Option String := none
  callID : Option String := none
  conf_id : Option String := none
  conference_id : Option String := none
deriving DecidableEq, Repr

/-- An inbound loosely-typed Matrix event as seen by `handle_unknown_event`.
`origin_server_ts = 0` models an absent timestamp (the code treats `0` as
"no timestamp", skipping the freshness check). -/
structure MatrixEvent where
  sender : Option String := none
  event_id : Option String := none
  etype : Option String := none
  origin_server_ts : Nat := 0
  content : EventContent := {}
deriving DecidableEq, Repr

/-- The alias-based content lookup for the call identifier: the python
`or`-chain over `call_id`/`callID`/`conf_id`/`conference_id`, then strip,
with an empty result treated as absent. -/
def contentCallId (c : EventContent) : Option String :=
  match pyOr (pyOr (pyOr c.call_id c.callID) c.conf_id) c.conference_id with
  | none => none
  | some s =>
    let t := pyTrim s
    if t = "" then none else some t

/-- The identifier extraction fallback of `handle_unknown_event`
(lines 153–193): content aliases, else the md5 hex digest of
`room_id + event_id` truncated to 16 characters, else
`room_id + "_" + event_type` truncated to 32 characters.  It reads no
registry state. -/
def extract_call_id (room_id event_type : String) (ev : MatrixEvent) : String :=
  match contentCallId ev.content with
  | some cid => cid
  | none =>
    match ev.event_id with
    | some eid =>
      if eid = "" then pyTake (room_id ++ "_" ++ event_type) 32
      else pyTake (md5Hex (room_id ++ eid)) 16
    | none => pyTake (room_id ++ "_" ++ event_type) 32

/-- `EventHandler.handle_unknown_event`: drop stale events (2-minute
window), ignore non-call and self-originated events, extract a call id,
register the call on a call-start type for an unregistered room, and on
`m.call.hangup`/`m.call.reject` unregister the call and auto-stop a tracked
recording — a stop failure is logged, leaving the call unregistered and the
recording still tracked.  Returns the new state and the operation trace. -/
def handle_unknown_event (st : BotState) (b : Backend) (bot_user room_id : String)
    (ev : MatrixEvent) (now : Nat) : BotState × List Op :=
  if 0 < ev.origin_server_ts ∧ callEventMaxAgeMs < now - ev.origin_server_ts then (st, [])
  else
    match ev.etype with
    | none => (st, [])
    | some event_type =>
      if event_type = "" then (st, [])
      else if ¬ isCallEvent event_type then (st, [])
      else if ev.sender = some bot_user then (st, [])
      else
        let call_id := extract_call_id room_id event_type ev
        if CALL_START_EVENTS.contains event_type then
          if ¬ dictContains st.active_calls room_id then
            (register_call st room_id call_id, [])
          else (st, [])
        else if event_type = "m.call.hangup" ∨ event_type = "m.call.reject" then
          match unregister_call st room_id with
          | (st1, some eid) =>
            match service_stop b eid now st1.db with
            | (.ok (db', _), tr) =>
              ({ st1 with
                  db := db'
                  active_recordings := dictRemove st1.active_recordings room_id }, tr)
            | (.error _, tr) => (st1, tr)
          | (st1, none) => (st1, [])
        else (st, [])

/-- `EventHandler.handle_message`: ignore messages from the bot itself, drop
messages older than 30 seconds, and route bodies starting with "/" to the
command handler; the returned string is the response sent to the room. -/
def handle_message (st : BotState) (b : Backend) (bot_user room_id sender body : String)
    (origin_server_ts now : Nat) : BotState × Option String × List Op :=
  if sender = bot_user then (st, none, [])
  else if 0 < origin_server_ts ∧ messageMaxAgeMs < now - origin_server_ts then (st, none, [])
  else
    let message_body := pyTrim body
    if pyStartsWith message_body "/" then
      handle_command st b message_body room_id sender now
    else (st, none, [])

/-! ### Concrete fixtures used by scenario theorems, counterexamples and witnesses -/

/-- A backend where every call succeeds (start yields egress id "EG1"). -/
def bOk : Backend where
  dev_mode := false
  startResult := .ok { egress_id := "EG1" }
  createRoomResult := .ok ()
  retryStartResult := .ok { egress_id := "EG1" }
  stopResult := .ok ()

/-- Like `bOk` but the backend stop call raises "boom". -/
def bStopFail : Backend := { bOk with stopResult := .error "boom" }

/-- A persisted recording in the terminal COMPLETED status. -/
def recDone : Recording :=
  { egress_id := "EG1", room_name := "C1", status := .COMPLETED, completed_at := some 50 }

/-- A persisted recording in ACTIVE status. -/
def recLive : Recording :=
  { egress_id := "EG1", room_name := "C1", status := .ACTIVE, started_at := some 10 }

/-- A webhook payload carrying only the egress id. -/
def infoEG1 : EgressInfo := { egress_id := some "EG1" }

/-- An `egress_updated` payload with backend sub-status "active". -/
def infoUpdActive : EgressInfo := { egress_id := some "EG1", status := some "active" }

/-- A call event with empty content and no event id. -/
def evSdpNoId : MatrixEvent := { sender := some "@alice:x", etype := some "m.call.sdp" }

/-- A call event with empty content and event id "evt1". -/
def evSdpEvt1 : MatrixEvent :=
  { sender := some "@alice:x", event_id := some "evt1", etype := some "m.call.sdp" }

/-- A call event whose content has `call_id = " abc123 "` (whitespace-padded). -/
def evSdpSpaces : MatrixEvent :=
  { etype := some "m.call.sdp", content := { call_id := some " abc123 " } }

/-- A call event whose content has an empty `call_id` and a `callID` alias. -/
def evSdpAlias : MatrixEvent :=
  { etype := some "m.call.sdp", content := { call_id := some "", callID := some "fromCallID" } }

/-- The bot user id used in scenario fixtures. -/
def botUser : String := "@bot:x"

/-- Scenario C5, step 1: a fresh MSC3401 call-start event carrying call id "C1". -/
def evStartC5 : MatrixEvent where
  sender := some "@alice:x"
  event_id := some "$e1"
  etype := some "org.matrix.msc3401.call"
  origin_server_ts := 1000
  content := { call_id := some "C1" }

/-- Scenario C5, step 3: a fresh hangup event for the same call. -/
def evHangC5 : MatrixEvent where
  sender := some "@alice:x"
  event_id := some "$e2"
  etype := some "m.call.hangup"
  origin_server_ts := 3000
  content := { call_id := some "C1" }

/-- Scenario C5: state after the call-start event. -/
def st1C5 : BotState := (handle_unknown_event {} bOk botUser "R1" evStartC5 1000).1

/-- Scenario C5: result of `/record start` in room R1. -/
def res2C5 : BotState × Option String × List Op :=
  handle_command st1C5 bOk "/record start" "R1" "@alice:x" 2000

/-- Scenario C5: state after the start command. -/
def st2C5 : BotState := res2C5.1

/-- Scenario C5: result of the hangup event (successful auto-stop). -/
def res3C5 : BotState × List Op := handle_unknown_event st2C5 bOk botUser "R1" evHangC5 3000

/-- Scenario C5: state after the hangup event. -/
def st3C5 : BotState := res3C5.1

/-- Scenario C5, failure variant: the hangup event when the backend stop raises. -/
def res3C5bad : BotState × List Op :=
  handle_unknown_event st2C5 bStopFail botUser "R1" evHangC5 3000

/-- A room with a tracked active recording but no registered call
(reachable: a previous auto-stop failure unregisters the call and keeps the
recording tracked, see `res3C5bad`). -/
def stRecNoCall : BotState := { active_recordings := [("R1", "EGX")] }

/-- A room with a registered call, a tracked recording "EG1" and its ACTIVE row. -/
def stTracked : BotState :=
  { active_recordings := [("R1", "EG1")], active_calls := [("R1", "C1")], db := [recLive] }

/-! ### Helper lemmas -/

/-- Updating by key and re-selecting returns the updated first match, for
any update that leaves the key field untouched. -/
theorem getByEgressId_map_update (db : List Recording) (eid : String)
    (f : Recording → Recording) (hf : ∀ x, (f x).egress_id = x.egress_id)
    (r : Recording) (hr : getByEgressId db eid = some r) :
    getByEgressId (db.map fun x => if x.egress_id = eid then f x else x) eid = some (f r) := by
  induction db with
  | nil => simp [getByEgressId] at hr
  | cons a l ih =>
    by_cases h : a.egress_id = eid
    · rw [getByEgressId, if_pos h] at hr
      have ha : a = r := by injection hr
      subst ha
      simp only [List.map_cons, if_pos h]
      rw [getByEgressId, if_pos (by rw [hf a]; exact h)]
    · rw [getByEgressId, if_neg h] at hr
      simp only [List.map_cons, if_neg h]
      rw [getByEgressId, if_neg h]
      exact ih hr

/-- Removing a key from a dict makes its lookup undefined. -/
theorem dictLookup_dictRemove_self (d : List (String × String)) (k : String) :
    dictLookup (dictRemove d k) k = none := by
  induction d with
  | nil => rfl
  | cons a l ih =>
    by_cases h : a.1 = k
    · rw [dictRemove, if_pos h]
      exact ih
    · rw [dictRemove, if_neg h, dictLookup, if_neg h]
      exact ih

/-! ### Claim theorems -/

/-- C1 (counterexample): terminal statuses are not absorbing and a
duplicate `egress_ended` is not an accepted no-op.  On a COMPLETED record,
`egress_started` resets the status to ACTIVE, and `egress_ended` raises
(the update dict carries the unmapped `metadata` key), so the handler does
error on re-applied terminal data. -/
theorem C1_counterexample :
    recDone.status = RecordingStatus.COMPLETED
    ∧ handle_webhook_event [recDone] "egress_started" infoEG1 100 =
        Except.ok ([{ recDone with status := RecordingStatus.ACTIVE }],
          some { recDone with status := RecordingStatus.ACTIVE })
    ∧ handle_webhook_event [recDone] "egress_ended" infoEG1 100 =
        Except.error "Unconsumed column names: metadata" := by
  exact ⟨rfl, rfl, rfl⟩

/-- C1 (amended): `egress_updated` and unknown event types leave the
database unchanged without error, but terminal records are not protected:
`egress_started` sets an existing record — terminal included — back to
ACTIVE, and every `egress_ended` raises before writing anything (its
update passes a `metadata` key the ORM model does not map; the audit
column is `context`), so `completed_at` is never overwritten — yet a
duplicate `egress_ended` for a COMPLETED record is an error, not an
accepted idempotent no-op. -/
theorem C1_terminal_reconciliation (db : List Recording) (eid : String) (r : Recording)
    (info : EgressInfo) (now : Nat)
    (hr : getByEgressId db eid = some r)
    (_hterm : r.status = RecordingStatus.COMPLETED)
    (hid : info.egress_id = some eid) (hne : eid ≠ "") :
    (handle_webhook_event db "egress_started" info now).map
        (fun p => (getByEgressId p.1 eid).map Recording.status) =
      Except.ok (some RecordingStatus.ACTIVE)
    ∧ handle_webhook_event db "egress_updated" info now = Except.ok (db, none)
    ∧ handle_webhook_event db "egress_ended" info now =
        Except.error "Unconsumed column names: metadata" := by
  refine ⟨?_, ?_, ?_⟩
  · have hu := getByEgressId_map_update db eid
      (fun x => { x with status := RecordingStatus.ACTIVE }) (fun _ => rfl) r hr
    simp [handle_webhook_event, hid, hne, hr, updateByEgressId, hu, Except.map]
  · simp [handle_webhook_event, hid, hne]
  · simp [handle_webhook_event, hid, hne]

/-- C1 (witness). -/
theorem C1_terminal_reconciliation_witness :
    (handle_webhook_event [recDone] "egress_started" infoEG1 100).map
        (fun p => (getByEgressId p.1 "EG1").map Recording.status) =
      Except.ok (some RecordingStatus.ACTIVE)
    ∧ handle_webhook_event [recDone] "egress_updated" infoEG1 100 = Except.ok ([recDone], none)
    ∧ handle_webhook_event [recDone] "egress_ended" infoEG1 100 =
        Except.error "Unconsumed column names: metadata" :=
  C1_terminal_reconciliation [recDone] "EG1" recDone infoEG1 100 rfl rfl rfl (by decide)

/-- C3 (counterexample): an `egress_updated` webhook with backend
sub-status "active" on an ACTIVE record does not transition it to
PROCESSING — the handler leaves the database unchanged and returns no
record. -/
theorem C3_counterexample :
    recLive.status = RecordingStatus.ACTIVE
    ∧ infoUpdActive.status = some "active"
    ∧ handle_webhook_event [recLive] "egress_updated" infoUpdActive 7 =
        Except.ok ([recLive], none) := by
  exact ⟨rfl, rfl, rfl⟩

/-- C3 (amended): `egress_updated` performs no sub-status mapping at all —
for every payload it leaves the database unchanged without error, updates
no status and never creates a record (the handler only logs the event
before touching the database, so the metadata defect of `egress_ended`
does not reach this branch). -/
theorem C3_updated_is_noop (db : List Recording) (info : EgressInfo) (now : Nat) :
    handle_webhook_event db "egress_updated" info now = Except.ok (db, none) := by
  cases h : info.egress_id with
  | none => simp [handle_webhook_event, h]
  | some eid => simp [handle_webhook_event, h]

set_option maxRecDepth 10000 in
/-- C2 (counterexample): with empty content and a call "xyz" registered for
the room, the extractor does not return "xyz" — it does not consult the
registry at all (it takes no registry argument): with no event id it
returns the synthesized `room_id + "_" + event_type` identifier, and with
event id "evt1" it returns the md5-derived identifier. -/
theorem C2_counterexample :
    extract_call_id "!r1" "m.call.sdp" evSdpNoId = "!r1_m.call.sdp"
    ∧ "!r1_m.call.sdp" ≠ "xyz"
    ∧ extract_call_id "room1" "m.call.sdp" evSdpEvt1 = "8de02ff9f0bd0301"
    ∧ "8de02ff9f0bd0301" ≠ "xyz" := by
  refine ⟨by decide, by decide, ?_, by decide⟩
  show pyTake (md5Hex ("room1" ++ "evt1")) 16 = "8de02ff9f0bd0301"
  decide

set_option maxRecDepth 10000 in
/-- C2 (amended): the ordered fallback of the extractor is: content alias
(trimmed, with " abc123 " yielding "abc123"), where an empty `call_id`
falls through to the `callID` alias; else the md5 hex digest of
`room_id + event_id` truncated to 16 characters; else the synthesized
`room_id + "_" + event_type` truncated to 32 characters.  The registered
call of the room is never consulted. -/
theorem C2_extraction_order :
    extract_call_id "roomA" "m.call.sdp" evSdpSpaces = "abc123"
    ∧ extract_call_id "room1" "m.call.sdp" evSdpAlias = "fromCallID"
    ∧ extract_call_id "room1" "m.call.sdp" evSdpEvt1 = pyTake (md5Hex ("room1" ++ "evt1")) 16
    ∧ pyTake (md5Hex ("room1" ++ "evt1")) 16 = "8de02ff9f0bd0301"
    ∧ extract_call_id "!r1" "m.call.sdp" evSdpNoId = pyTake ("!r1" ++ "_" ++ "m.call.sdp") 32 := by
  refine ⟨by decide, by decide, by decide, by decide, by decide⟩

/-- C4 (counterexample): in a room with no registered CallSession but a
tracked active recording (a state reachable after a failed auto-stop),
`/record start` does not reply with the NoActiveCall message — the
AlreadyRecording check runs first. -/
theorem C4_counterexample :
    dictContains stRecNoCall.active_calls "R1" = false
    ∧ handle_command stRecNoCall bOk "/record start" "R1" "@alice:x" 5 =
        (stRecNoCall, some (alreadyRecordingMsg "EGX"), [])
    ∧ alreadyRecordingMsg "EGX" ≠ noActiveCallMsg := by
  refine ⟨rfl, by decide, by decide⟩

/-- C4 (amended): for every room with no registered CallSession,
`/record start` never invokes the backend, creates no record and leaves
all state unchanged; the reply is the NoActiveCall message — unless the
room still has a tracked active recording, in which case the
AlreadyRecording reply takes precedence. -/
theorem C4_start_without_call (st : BotState) (b : Backend) (room sender : String)
    (now : Nat) (hcall : dictLookup st.active_calls room = none) :
    handle_command st b "/record start" room sender now =
      (st, some (match dictLookup st.active_recordings room with
                 | some eid => alreadyRecordingMsg eid
                 | none => noActiveCallMsg), []) := by
  have hred : handle_command st b "/record start" room sender now =
      (let r := record_start st b room sender now; (r.1, some r.2.1, r.2.2)) := rfl
  rw [hred]
  unfold record_start
  cases h : dictLookup st.active_recordings room with
  | some eid => simp [h]
  | none => simp [h, hcall]

/-- C4 (witness). -/
theorem C4_start_without_call_witness :
    handle_command {} bOk "/record start" "R9" "u" 3 =
      (({} : BotState), some noActiveCallMsg, []) := by
  have h := C4_start_without_call {} bOk "R9" "u" 3 rfl
  simpa using h

/-- C5: end-to-end scenario.  A fresh call-start event registers call "C1"
in room "R1"; `/record start` succeeds, replies with the egress id "EG1"
and persists an ACTIVE row while tracking the room; a hangup event
auto-stops the recording (row STOPPED with `stopped_at` set), removes the
room from `active_recordings` and leaves no active call.  If the backend
stop raises instead, the failure is absorbed: the handler still returns,
the call is unregistered, and the recording row and tracking are left
unchanged (only the backend stop appears in the trace). -/
theorem C5_call_recording_scenario :
    dictLookup st1C5.active_calls "R1" = some "C1"
    ∧ res2C5.2.1 = some (startSuccessMsg "C1" "EG1")
    ∧ dictLookup st2C5.active_recordings "R1" = some "EG1"
    ∧ (getByEgressId st2C5.db "EG1").map Recording.status = some RecordingStatus.ACTIVE
    ∧ (getByEgressId st3C5.db "EG1").map (fun x => (x.status, x.stopped_at)) =
        some (RecordingStatus.STOPPED, some 3000)
    ∧ dictLookup st3C5.active_recordings "R1" = none
    ∧ dictLookup st3C5.active_calls "R1" = none
    ∧ res3C5bad.1.active_calls = []
    ∧ res3C5bad.1.active_recordings = st2C5.active_recordings
    ∧ res3C5bad.1.db = st2C5.db
    ∧ res3C5bad.2 = [Op.backendStop "EG1"] := by
  refine ⟨by decide, by decide, by decide, by decide, by decide, by decide, by decide,
    by decide, by decide, by decide, by decide⟩

/-- C6 (counterexample): a successful `/record stop` on the tracked
recording "EG1" leaves `stopped_by` unset (`none`) — only `status` and
`stopped_at` are written. -/
theorem C6_counterexample :
    (getByEgressId (handle_command stTracked bOk "/record stop" "R1" "@alice:x" 20).1.db
        "EG1").map (fun r => (r.status, r.stopped_at, r.stopped_by)) =
      some (RecordingStatus.STOPPED, some 20, none) := by
  decide

/-- C6 (amended): for every tracked-active egress id, a successful stop
transitions the persisted row to STOPPED with `stopped_at` set (all other
fields, `stopped_by` included, are left unchanged) and removes the
room→egress mapping from the registry, replying with the success message. -/
theorem C6_stop_success (st : BotState) (b : Backend) (room sender : String) (now : Nat)
    (eid : String) (r : Recording)
    (hrec : dictLookup st.active_recordings room = some eid)
    (hrow : getByEgressId st.db eid = some r)
    (hstop : b.stopResult = Except.ok ()) :
    getByEgressId (handle_command st b "/record stop" room sender now).1.db eid =
        some { r with status := RecordingStatus.STOPPED, stopped_at := some now }
    ∧ dictLookup (handle_command st b "/record stop" room sender now).1.active_recordings
        room = none
    ∧ (handle_command st b "/record stop" room sender now).2.1 = some (stopSuccessMsg eid) := by
  have hred : handle_command st b "/record stop" room sender now =
      (let r := record_stop st b room sender now; (r.1, some r.2.1, r.2.2)) := rfl
  rw [hred]
  unfold record_stop service_stop
  simp only [hrec, hstop, updateByEgressId]
  refine ⟨?_, ?_, by trivial⟩
  · exact getByEgressId_map_update st.db eid
      (fun x => { x with status := RecordingStatus.STOPPED, stopped_at := some now })
      (fun _ => rfl) r hrow
  · exact dictLookup_dictRemove_self st.active_recordings room

/-- C6 (witness). -/
theorem C6_stop_success_witness :
    getByEgressId (handle_command stTracked bOk "/record stop" "R1" "@alice:x" 20).1.db
        "EG1" = some { recLive with status := RecordingStatus.STOPPED, stopped_at := some 20 }
    ∧ dictLookup (handle_command stTracked bOk "/record stop" "R1" "@alice:x" 20).1.active_recordings
        "R1" = none
    ∧ (handle_command stTracked bOk "/record stop" "R1" "@alice:x" 20).2.1 =
        some (stopSuccessMsg "EG1") :=
  C6_stop_success stTracked bOk "R1" "@alice:x" 20 "EG1" recLive rfl rfl rfl

/-- C7: stop is atomic on backend failure.  When the backend stop call
raises, `/record stop` replies with the failure string and changes nothing:
the state (rows and registries) is returned unchanged and the trace shows
the backend stop call and no database write, so a retry is possible.  When
the backend stop succeeds, the trace is backend stop followed by the
database write — the backend call always precedes the write. -/
theorem C7_stop_atomic (st : BotState) (b : Backend) (room sender : String) (now : Nat)
    (eid : String) (hrec : dictLookup st.active_recordings room = some eid) :
    (∀ e, b.stopResult = Except.error e →
      handle_command st b "/record stop" room sender now =
        (st, some ("❌ Failed to stop recording: " ++ e), [Op.backendStop eid]))
    ∧ (b.stopResult = Except.ok () →
      (handle_command st b "/record stop" room sender now).2.2 =
        [Op.backendStop eid, Op.dbUpdate eid]) := by
  have hred : handle_command st b "/record stop" room sender now =
      (let r := record_stop st b room sender now; (r.1, some r.2.1, r.2.2)) := rfl
  constructor
  · intro e he
    rw [hred]
    unfold record_stop service_stop
    simp only [hrec, he]
  · intro hok
    rw [hred]
    unfold record_stop service_stop
    simp only [hrec, hok]

/-- C7 (witness). -/
theorem C7_stop_atomic_witness :
    handle_command stTracked bStopFail "/record stop" "R1" "@alice:x" 9 =
      (stTracked, some ("❌ Failed to stop recording: " ++ "boom"), [Op.backendStop "EG1"]) :=
  (C7_stop_atomic stTracked bStopFail "R1" "@alice:x" 9 "EG1" rfl).1 "boom" rfl

/-- C8: the freshness filter.  A chat message whose origin timestamp is
older than the 30-second message threshold is dropped with no state
change, no response and no backend or database operation; a call-signaling
event older than the 2-minute threshold is likewise dropped; and the
call-signaling window is strictly longer than the message window. -/
theorem C8_freshness (st : BotState) (b : Backend) (bot room sender body : String)
    (ts now : Nat) (ev : MatrixEvent)
    (hts : 0 < ts) (hold : messageMaxAgeMs < now - ts)
    (hts2 : 0 < ev.origin_server_ts) (hold2 : callEventMaxAgeMs < now - ev.origin_server_ts) :
    handle_message st b bot room sender body ts now = (st, none, [])
    ∧ handle_unknown_event st b bot room ev now = (st, [])
    ∧ messageMaxAgeMs < callEventMaxAgeMs := by
  refine ⟨?_, ?_, by decide⟩
  · unfold handle_message
    by_cases hs : sender = bot
    · rw [if_pos hs]
    · rw [if_neg hs, if_pos (show 0 < ts ∧ messageMaxAgeMs < now - ts from ⟨hts, hold⟩)]
  · unfold handle_unknown_event
    rw [if_pos (show 0 < ev.origin_server_ts ∧ callEventMaxAgeMs < now - ev.origin_server_ts
      from ⟨hts2, hold2⟩)]

/-- C8 (witness). -/
theorem C8_freshness_witness :
    handle_message {} bOk botUser "R1" "@alice:x" "/record start" 1000 200000 =
      (({} : BotState), none, [])
    ∧ handle_unknown_event {} bOk botUser "R1" evStartC5 200000 = (({} : BotState), [])
    ∧ messageMaxAgeMs < callEventMaxAgeMs :=
  C8_freshness {} bOk botUser "R1" "@alice:x" "/record start" 1000 200000 evStartC5
    (by decide) (by decide) (by decide) (by decide)

/-- C9 (counterexample): empty input does not return a usage hint and an
unrecognized top-level command does not return an error string — both
return no response at all (`none`). -/
theorem C9_counterexample :
    handle_command {} bOk "" "R1" "u" 1 = (({} : BotState), none, [])
    ∧ handle_command {} bOk "/help" "R1" "u" 1 = (({} : BotState), none, []) := by
  exact ⟨by decide, by decide⟩

/-- C9 (amended): command routing is total (a pure function of the input)
and never mutates state except through `/record start|stop`; `/record`
without an action returns the usage hint, `/record` with an unknown action
returns the unknown-action error string, and recognized start/stop always
produce a response string — but empty input and unrecognized top-level
commands produce no response (`none`) rather than a usage or error string. -/
theorem C9_routing_total (st : BotState) (b : Backend) (command room sender : String)
    (now : Nat) :
    (pySplitWs command = [] →
      handle_command st b command room sender now = (st, none, []))
    ∧ (∀ c cs, pySplitWs command = c :: cs → pyLower c ≠ "/record" →
      handle_command st b command room sender now = (st, none, []))
    ∧ (∀ c, pySplitWs command = [c] → pyLower c = "/record" →
      handle_command st b command room sender now =
        (st, some "Usage: /record start|stop", []))
    ∧ (∀ c a cs, pySplitWs command = c :: a :: cs → pyLower c = "/record" →
      pyLower a ≠ "start" → pyLower a ≠ "stop" →
      handle_command st b command room sender now =
        (st, some ("Unknown action: " ++ pyLower a ++ ". Use \x27start\x27 or \x27stop\x27"), []))
    ∧ (∀ c a cs, pySplitWs command = c :: a :: cs → pyLower c = "/record" →
      (pyLower a = "start" ∨ pyLower a = "stop") →
      (handle_command st b command room sender now).2.1.isSome = true) := by
  refine ⟨?_, ?_, ?_, ?_, ?_⟩
  · intro h
    unfold handle_command
    simp only [h]
  · intro c cs h hc
    unfold handle_command
    simp only [h, if_neg hc]
  · intro c h hc
    unfold handle_command
    simp only [h, if_pos hc]
  · intro c a cs h hc ha1 ha2
    unfold handle_command
    simp only [h, if_pos hc, if_neg ha1, if_neg ha2]
  · intro c a cs h hc ha
    unfold handle_command
    cases ha with
    | inl ha => simp only [h, if_pos hc, if_pos ha, Option.isSome_some]
    | inr ha => simp only [h, if_pos hc,
        if_neg (show ¬ (pyLower a = "start") from by rw [ha]; decide), if_pos ha,
        Option.isSome_some]

/-- C9 (witness). -/
theorem C9_routing_total_witness :
    handle_command {} bOk "" "R1" "u" 7 = (({} : BotState), none, []) :=
  (C9_routing_total {} bOk "" "R1" "u" 7).1 rfl

/-- C10: a hangup (or reject) event for a room with a tracked active
recording but no registered call does nothing: `unregister_call` returns
`none`, the backend stop is not invoked, no database write happens (empty
trace) and the state — the tracked recording included — is unchanged. -/
theorem C10_hangup_without_call (st : BotState) (b : Backend) (bot room : String)
    (ev : MatrixEvent) (now : Nat)
    (hcall : dictLookup st.active_calls room = none)
    (_hrec : dictContains st.active_recordings room = true)
    (htype : ev.etype = some "m.call.hangup")
    (hfresh : now - ev.origin_server_ts ≤ callEventMaxAgeMs)
    (hsender : ev.sender ≠ some bot) :
    unregister_call st room = (st, none)
    ∧ handle_unknown_event st b bot room ev now = (st, []) := by
  have hcontains : dictContains st.active_calls room = false := by
    unfold dictContains
    rw [hcall]
    rfl
  have hu : unregister_call st room = (st, none) := by
    unfold unregister_call
    simp only [hcontains, Bool.false_eq_true, if_false]
  refine ⟨hu, ?_⟩
  unfold handle_unknown_event
  rw [if_neg (fun hdrop => absurd hdrop.2 (Nat.not_lt.mpr hfresh))]
  simp only [htype]
  rw [if_neg (by decide : ¬ (("m.call.hangup" : String) = ""))]
  rw [if_neg (by decide : ¬ (¬ isCallEvent "m.call.hangup" = true))]
  rw [if_neg hsender]
  rw [if_neg (by decide : ¬ (CALL_START_EVENTS.contains "m.call.hangup" = true))]
  simp [hu]

/-- C10 (witness). -/
theorem C10_hangup_without_call_witness :
    unregister_call stRecNoCall "R1" = (stRecNoCall, none)
    ∧ handle_unknown_event stRecNoCall bOk botUser "R1" evHangC5 4000 = (stRecNoCall, []) :=
  C10_hangup_without_call stRecNoCall bOk botUser "R1" evHangC5 4000 rfl rfl rfl
    (by decide) (by decide)

end Zadacha
